import Mathlib

/-
Verification of the json-rpc repository: a shallow embedding of the JSON-RPC 2.0
message model and its validating codec.

The repository superimposes several historical revisions of the same crate.
The library crate (lib.rs) consists of err.rs, msg.rs, de.rs, schema.rs and
ser.rs; the decoding machinery embedded here is the one of src/de.rs (the
visitors for Error, Id, Request, Response and Message), the error model is the
one of src/err.rs, the encoders follow src/ser.rs, and the schema constants are
transcribed from src/schema.rs.  The msg.rs revision that de.rs compiles
against (Request with an optional id covering notifications, Response with an
optional id, batch wrappers) is absent from the sources; those carrier types
are modelled from the spec (sections 3, 4.4, 4.5) and from how de.rs/ser.rs use
them, as noted on each definition.

JSON values are modelled as a tree; JSON numbers are split into integers
(serde_json PosInt/NegInt) and floating point (carrying only its printed form,
which is all the codec ever inspects).  Machine integers are Lean Int with the
64-bit bounds checked explicitly where the source checks them.  Fallible
decoding returns Except String, with error messages reproduced from the source
(serde formats for invalid type / missing field / unknown field, and the
crate's own custom messages).
-/

namespace JsonRpc

/-- Generic JSON document tree (serde_json::Value).  Objects are the ordered
field-entry sequence a MapAccess yields, so a repeated key is representable,
as it is when serde deserializes from JSON text. -/
inductive Value where
  | null : Value
  | bool (b : Bool) : Value
  | int (n : Int) : Value
  | float (repr : String) : Value
  | str (s : String) : Value
  | arr (xs : List Value) : Value
  | obj (fs : List (String × Value)) : Value

mutual

/-- Display of a JSON value (serde_json::Value::to_string), used by the
Display impl of ErrorData in err.rs. -/
def renderValue : Value → String
  | .null => "null"
  | .bool true => "true"
  | .bool false => "false"
  | .int n => toString n
  | .float r => r
  | .str s => "\"" ++ s ++ "\""
  | .arr xs => "[" ++ renderArr xs ++ "]"
  | .obj fs => "\x7b" ++ renderObj fs ++ "\x7d"

/-- Comma-separated rendering of array elements. -/
def renderArr : List Value → String
  | [] => ""
  | [x] => renderValue x
  | x :: y :: rest => renderValue x ++ "," ++ renderArr (y :: rest)

/-- Comma-separated rendering of object entries. -/
def renderObj : List (String × Value) → String
  | [] => ""
  | [(k, v)] => "\"" ++ k ++ "\":" ++ renderValue v
  | (k, v) :: e :: rest => "\"" ++ k ++ "\":" ++ renderValue v ++ "," ++ renderObj (e :: rest)

end

/-- The serde `Unexpected` description of a JSON value, as it appears in
`invalid type:` messages. -/
def Value.unexpectedDesc : Value → String
  | .null => "null"
  | .bool true => "boolean `true`"
  | .bool false => "boolean `false`"
  | .int n => "integer `" ++ toString n ++ "`"
  | .float r => "floating point `" ++ r ++ "`"
  | .str s => "string \"" ++ s ++ "\""
  | .arr _ => "sequence"
  | .obj _ => "map"

/-! ### Schema constants (src/schema.rs) -/

/-- schema::VERSION. -/
def VERSION : String := "2.0"

/-- schema::id::EXPECTED_SCHEMA. -/
def idExpectedSchema : String :=
  "\x7b\"anyOf\": [\x7b \"type\": \"string\" \x7d, \x7b\"type\": \"integer\", \"minimum\": 0, \"maximum\": 18446744073709551615\x7d]\x7d"

/-- schema::parameters::EXPECTED_SCHEMA. -/
def paramsExpectedSchema : String :=
  "\x7b\"anyOf\": [\x7b \"type\": \"array\" \x7d, \x7b \"type\": \"object\", \"additionalProperties\": true \x7d]\x7d"

/-- schema::error::EXPECTED_SCHEMA. -/
def errorExpectedSchema : String :=
  "\x7b\"type\": \"object\", \"required\": [\"code\", \"message\"], \"properties\": \x7b\"code\": \x7b\"oneOf\": [\x7b \"enum\": [-32700, -32600, -32601, -32602, -32603] \x7d, \x7b\"type\": \"integer\", \"minimum\": -32099, \"maximum\": -32000\x7d]\x7d, \"message\": \x7b\"type\": \"string\"\x7d, \"data\": \x7b\"type\": [\"object\", \"array\", \"string\", \"number\", \"boolean\", \"null\"]\x7d\x7d, \"additionalProperties\": false\x7d"

/-- schema::request::EXPECTED_SCHEMA. -/
def requestExpectedSchema : String :=
  "\x7b\"jsonrpc\":\"2.0\",\"id\":\"null|string|number:i64\",\"method\":\"string\",\"params\":\"array:any|object:any\"\x7d"

/-- schema::response::EXPECTED_SCHEMA. -/
def responseExpectedSchema : String :=
  "\x7b\"jsonrpc\":\"2.0\",\"id\":\"null|string|number:i64\",\"result\":\"any\"\x7d|\x7b\"jsonrpc\":\"2.0\",\"id\":\"null|string|number:i64\",\"error\":\"object:Error\"\x7d"

/-- schema::message::EXPECTED_SCHEMA. -/
def messageExpectedSchema : String :=
  "array:Request|array:Response|object:Request|object:Response"

/-- schema::error::FIELD_NAMES. -/
def errorFieldNames : List String := ["code", "message", "data"]

/-- schema::request::FIELD_NAMES. -/
def requestFieldNames : List String := ["jsonrpc", "id", "method", "params"]

/-- schema::response::FIELD_NAMES. -/
def responseFieldNames : List String := ["jsonrpc", "id", "result", "error"]

/-! ### Error-message constructors (serde formats and src/de.rs customs) -/

/-- The serde `invalid type` message. -/
def invalidTypeMsg (unexp exp : String) : String :=
  "invalid type: " ++ unexp ++ ", expected " ++ exp

/-- The serde `missing field` message. -/
def missingFieldMsg (field : String) : String :=
  "missing field `" ++ field ++ "`"

/-- The serde `unknown field` message. -/
def unknownFieldMsg (field : String) (expected : List String) : String :=
  "unknown field `" ++ field ++ "`, expected one of " ++
    String.intercalate ", " (expected.map fun f => "`" ++ f ++ "`")

/-- make_field_error in src/de.rs: field `f` contains an {reason}. -/
def fieldContainsMsg (field what : String) : String :=
  "field `" ++ field ++ "` contains an " ++ what

/-- ensure_valid_jsonrpc_version failure message in src/de.rs. -/
def versionMsg (field got : String) : String :=
  "invalid value for field `" ++ field ++ "`: expected version \"" ++ VERSION ++
    "\", got \"" ++ got ++ "\""

/-- IdVisitor::MSG_NUMBER_TOO_LARGE in src/de.rs. -/
def msgNumberTooLarge : String := "number too large: expected a signed 64-bit integer"

/-- ResponseVisitor ambiguous-payload message in src/de.rs. -/
def responseAmbiguousMsg : String :=
  "`result` and `error` cannot both be present in the same response"

/-- ResponseVisitor id-required message in src/de.rs. -/
def responseIdRequiredMsg : String :=
  "`id` is required in a successful response with `result`"

/-- ResponseVisitor missing-payload message in src/de.rs. -/
def responseMissingPayloadMsg : String :=
  "response must contain either `result` or `error`"

/-- MessageVisitor empty-batch message in src/de.rs. -/
def emptyArrayMsg : String := "empty array"

/-- MessageVisitor unclassifiable-batch-element message in src/de.rs. -/
def invalidBatchElementMsg : String := "invalid batch element type"

/-- MessageVisitor unclassifiable-object message in src/de.rs. -/
def objNeitherMsg : String := "object is neither a Request nor a Response"

/-- ErrorCode::ERR_INVALID_CODE in src/err.rs. -/
def errInvalidCode : String :=
  "invalid error code: must be predefined or in range -32099 to -32000"

/-! ### Identifier (src/id.rs revision used by src/de.rs: Id::Num carries i64) -/

/-- The JSON-RPC correlation identifier, a string or a signed 64-bit integer
(the Id enum of the id.rs revision that de.rs IdVisitor constructs). -/
inductive Id where
  | num (n : Int) : Id
  | str (s : String) : Id

/-- i64::MAX (2^63 - 1). -/
def maxI64 : Int := 9223372036854775807

/-- i64::MIN (-2^63). -/
def minI64 : Int := -9223372036854775808

/-- IdVisitor of src/de.rs via deserialize_any: a string visits visit_str,
a serde_json NegInt visits visit_i64 (always accepted), a PosInt visits
visit_u64 (accepted iff it fits in i64), any other shape falls into the
default visit methods and fails with the visitor expecting string. -/
def decodeId (v : Value) : Except String Id :=
  match v with
  | .str s => .ok (.str s)
  | .int n =>
    if n < 0 then .ok (.num n)
    else if n ≤ maxI64 then .ok (.num n)
    else .error msgNumberTooLarge
  | v => .error (invalidTypeMsg v.unexpectedDesc idExpectedSchema)

/-- Serialize for Id in src/id.rs: Num emits an integer, Str a string. -/
def Id.encode : Id → Value
  | .num n => .int n
  | .str s => .str s

/-! ### ErrorCode / ErrorData / Error (src/err.rs) -/

/-- ErrorCode: five reserved protocol codes plus the open server-error range. -/
inductive ErrorCode where
  | parseError : ErrorCode
  | invalidRequest : ErrorCode
  | methodNotFound : ErrorCode
  | invalidParams : ErrorCode
  | internalError : ErrorCode
  | serverError (code : Int) : ErrorCode

namespace ErrorCode

def CODE_PARSE_ERROR : Int := -32700
def CODE_INVALID_REQUEST : Int := -32600
def CODE_METHOD_NOT_FOUND : Int := -32601
def CODE_INVALID_PARAMS : Int := -32602
def CODE_INTERNAL_ERROR : Int := -32603
def CODE_SERVER_ERROR_MIN : Int := -32099
def CODE_SERVER_ERROR_MAX : Int := -32000

/-- ErrorCode::as_i64. -/
def as_i64 : ErrorCode → Int
  | .parseError => CODE_PARSE_ERROR
  | .invalidRequest => CODE_INVALID_REQUEST
  | .methodNotFound => CODE_METHOD_NOT_FOUND
  | .invalidParams => CODE_INVALID_PARAMS
  | .internalError => CODE_INTERNAL_ERROR
  | .serverError code => code

end ErrorCode

/-- ErrorData: an opaque JSON value carried on an Error (src/err.rs). -/
structure ErrorData where
  value : Value

/-- ErrorData::new. -/
def ErrorData.new (v : Value) : ErrorData := ⟨v⟩

/-- Display for ErrorData: the JSON rendering of the carried value. -/
def renderErrorData (d : ErrorData) : String := renderValue d.value

/-- The structured JSON-RPC failure payload (src/err.rs). -/
structure Error where
  code : ErrorCode
  message : String
  data : Option ErrorData

/-- Error::new. -/
def Error.new (code : ErrorCode) (message : String) : Error :=
  { code := code, message := message, data := none }

/-- Error::new_default: the message defaults to a fixed string per code. -/
def Error.new_default (code : ErrorCode) : Error :=
  let message :=
    match code with
    | .parseError => "Parse error"
    | .invalidRequest => "Invalid Request"
    | .methodNotFound => "Method not found"
    | .invalidParams => "Invalid params"
    | .internalError => "Internal error"
    | .serverError _ => "Server error"
  { code := code, message := message, data := none }

/-- Error::with_data. -/
def Error.with_data (e : Error) (d : ErrorData) : Error :=
  { e with data := some d }

/-- ErrorCode::create in src/err.rs: the five reserved codes and the
[-32099, -32000] range succeed; anything else is rejected with a fully-formed
InvalidRequest Error carrying ERR_INVALID_CODE as data. -/
def ErrorCode.create (code : Int) : Except Error ErrorCode :=
  if code = CODE_PARSE_ERROR then .ok .parseError
  else if code = CODE_INVALID_REQUEST then .ok .invalidRequest
  else if code = CODE_METHOD_NOT_FOUND then .ok .methodNotFound
  else if code = CODE_INVALID_PARAMS then .ok .invalidParams
  else if code = CODE_INTERNAL_ERROR then .ok .internalError
  else if CODE_SERVER_ERROR_MIN ≤ code ∧ code ≤ CODE_SERVER_ERROR_MAX then
    .ok (.serverError code)
  else
    .error ((Error.new_default .invalidRequest).with_data (ErrorData.new (.str errInvalidCode)))

/-! ### Shared field decoding helpers (src/de.rs free functions) -/

/-- deserialize_i64 in src/de.rs: i64::deserialize of the raw value, with the
failure wrapped by make_field_error.  An integer outside the i64 range (a
PosInt above i64::MAX) is rejected by the serde i64 visitor. -/
def deserialize_i64 (field : String) (v : Value) : Except String Int :=
  match v with
  | .int n =>
    if minI64 ≤ n ∧ n ≤ maxI64 then .ok n
    else .error (fieldContainsMsg field ("invalid value: integer `" ++ toString n ++ "`, expected i64"))
  | v => .error (fieldContainsMsg field (invalidTypeMsg v.unexpectedDesc "i64"))

/-- deserialize_string in src/de.rs: String::deserialize of the raw value,
with the failure wrapped by make_field_error. -/
def deserialize_string (field : String) (v : Value) : Except String String :=
  match v with
  | .str s => .ok s
  | v => .error (fieldContainsMsg field (invalidTypeMsg v.unexpectedDesc "a string"))

/-- map_field_error in src/de.rs: wraps an ErrorCode::create failure, using
the Display of the error data when present, the message otherwise. -/
def map_field_error (field : String) (e : Error) : String :=
  match e.data with
  | some d => fieldContainsMsg field (renderErrorData d)
  | none => fieldContainsMsg field e.message

/-! ### Error decoding (ErrorVisitor in src/de.rs) -/

/-- The accumulate-then-validate state of ErrorVisitor::visit_map. -/
structure ErrAcc where
  code : Option ErrorCode := none
  message : Option String := none
  data : Option ErrorData := none

/-- ErrorVisitor::visit_field_code. -/
def visitFieldCode (v : Value) : Except String ErrorCode :=
  match deserialize_i64 "code" v with
  | .error e => .error e
  | .ok n =>
    match ErrorCode.create n with
    | .error e => .error (map_field_error "code" e)
    | .ok c => .ok c

/-- One entry of the ErrorVisitor::visit_map walk: a later occurrence of a
field simply overwrites the accumulator slot. -/
def errorStep (acc : ErrAcc) (kv : String × Value) : Except String ErrAcc :=
  let (k, v) := kv
  if k = "code" then
    match visitFieldCode v with
    | .error e => .error e
    | .ok c => .ok { acc with code := some c }
  else if k = "message" then
    match deserialize_string "message" v with
    | .error e => .error e
    | .ok m => .ok { acc with message := some m }
  else if k = "data" then
    .ok { acc with data := some (ErrorData.new v) }
  else .error (unknownFieldMsg k errorFieldNames)

/-- The while-let loop of ErrorVisitor::visit_map over the object entries. -/
def errorWalkFrom (acc : ErrAcc) : List (String × Value) → Except String ErrAcc
  | [] => .ok acc
  | kv :: rest =>
    match errorStep acc kv with
    | .error e => .error e
    | .ok acc2 => errorWalkFrom acc2 rest

/-- The validation after the walk: code and message are required, data is
attached when present. -/
def errorFinish (acc : ErrAcc) : Except String Error :=
  match acc.code with
  | none => .error (missingFieldMsg "code")
  | some c =>
    match acc.message with
    | none => .error (missingFieldMsg "message")
    | some m =>
      match acc.data with
      | some d => .ok ((Error.new c m).with_data d)
      | none => .ok (Error.new c m)

/-- Deserialize for Error in src/de.rs: deserialize_map with ErrorVisitor;
a non-object input fails with the visitor expecting string. -/
def decodeError (v : Value) : Except String Error :=
  match v with
  | .obj fs =>
    match errorWalkFrom {} fs with
    | .error e => .error e
    | .ok acc => errorFinish acc
  | v => .error (invalidTypeMsg v.unexpectedDesc errorExpectedSchema)

/-- Serialize for Error in src/ser.rs: code, message, then data when present. -/
def encodeError (e : Error) : Value :=
  .obj ([("code", Value.int e.code.as_i64), ("message", Value.str e.message)] ++
    (match e.data with
     | some d => [("data", d.value)]
     | none => []))

/-! ### Request / Response / Message carrier types

Modelled from the spec: the msg.rs revision that src/de.rs compiles against
(RequestParams, Request with new_request/new_notification, Response with an
optional id, BatchRequest/BatchResponse, Message over them) is absent from the
sources; the shapes below follow spec sections 3, 4.4 and 4.5 and the way
src/de.rs and src/ser.rs construct and consume them. -/

/-- Request/notification argument payload: positional or named. -/
inductive RequestParams where
  | array (xs : List Value) : RequestParams
  | object (fs : List (String × Value)) : RequestParams

/-- Modelled from the spec: a request bearing an optional id; an id-less
request is a notification (Request::new_notification in src/de.rs). -/
structure Request where
  id : Option Id
  method : String
  params : Option RequestParams

/-- Request::new_request. -/
def Request.new_request (id : Id) (method : String) (params : Option RequestParams) : Request :=
  { id := some id, method := method, params := params }

/-- Request::new_notification. -/
def Request.new_notification (method : String) (params : Option RequestParams) : Request :=
  { id := none, method := method, params := params }

/-- Modelled from the spec: a response carries an optional id and either a
success value or an Error (Result in src/response.rs and src/msg.rs). -/
structure Response where
  id : Option Id
  result : Except Error Value

/-- Response::new_success. -/
def Response.new_success (id : Id) (result : Value) : Response :=
  { id := some id, result := .ok result }

/-- Response::new_error. -/
def Response.new_error (id : Option Id) (e : Error) : Response :=
  { id := id, result := .error e }

/-- Modelled from the spec: the discriminating envelope of src/de.rs
MessageVisitor — a single request or response, or a homogeneous batch. -/
inductive Message where
  | request (r : Request) : Message
  | response (p : Response) : Message
  | batchRequest (rs : List Request) : Message
  | batchResponse (ps : List Response) : Message

/-! ### Request decoding (RequestVisitor in src/de.rs) -/

/-- RequestVisitor::visit_field_id (also ResponseVisitor::visit_field_id): a
JSON null means the field is absent; anything else decodes as an Id with the
failure wrapped by make_field_error. -/
def visitFieldId (v : Value) : Except String (Option Id) :=
  match v with
  | .null => .ok none
  | v =>
    match decodeId v with
    | .error e => .error (fieldContainsMsg "id" e)
    | .ok i => .ok (some i)

/-- RequestParamsVisitor in src/de.rs via deserialize_any: a sequence decodes
positionally, a map by name, anything else fails with the visitor expecting
string. -/
def decodeParams (v : Value) : Except String RequestParams :=
  match v with
  | .arr xs => .ok (.array xs)
  | .obj fs => .ok (.object fs)
  | v => .error (invalidTypeMsg v.unexpectedDesc paramsExpectedSchema)

/-- RequestVisitor::visit_field_params: null means absent, otherwise the value
decodes through RequestParams. -/
def visitFieldParams (v : Value) : Except String (Option RequestParams) :=
  match v with
  | .null => .ok none
  | v =>
    match decodeParams v with
    | .error e => .error (fieldContainsMsg "params" e)
    | .ok p => .ok (some p)

/-- The accumulate-then-validate state of RequestVisitor::visit_map. -/
structure ReqAcc where
  jsonrpc : Option String := none
  id : Option Id := none
  method : Option String := none
  params : Option RequestParams := none

/-- One entry of the RequestVisitor::visit_map walk.  As in the source, a
later occurrence of a field overwrites the accumulator slot, and a null id or
params resets the slot to absent. -/
def requestStep (acc : ReqAcc) (kv : String × Value) : Except String ReqAcc :=
  let (k, v) := kv
  if k = "jsonrpc" then
    match deserialize_string "jsonrpc" v with
    | .error e => .error e
    | .ok s => .ok { acc with jsonrpc := some s }
  else if k = "id" then
    match visitFieldId v with
    | .error e => .error e
    | .ok i => .ok { acc with id := i }
  else if k = "method" then
    match deserialize_string "method" v with
    | .error e => .error e
    | .ok m => .ok { acc with method := some m }
  else if k = "params" then
    match visitFieldParams v with
    | .error e => .error e
    | .ok p => .ok { acc with params := p }
  else .error (unknownFieldMsg k requestFieldNames)

/-- The while-let loop of RequestVisitor::visit_map over the object entries. -/
def requestWalkFrom (acc : ReqAcc) : List (String × Value) → Except String ReqAcc
  | [] => .ok acc
  | kv :: rest =>
    match requestStep acc kv with
    | .error e => .error e
    | .ok acc2 => requestWalkFrom acc2 rest

/-- The validation after the walk: jsonrpc must be present and equal "2.0",
method must be present; a present id makes a request, an absent one a
notification. -/
def requestFinish (acc : ReqAcc) : Except String Request :=
  match acc.jsonrpc with
  | none => .error (missingFieldMsg "jsonrpc")
  | some s =>
    if s = VERSION then
      match acc.method with
      | none => .error (missingFieldMsg "method")
      | some m =>
        match acc.id with
        | some i => .ok (Request.new_request i m acc.params)
        | none => .ok (Request.new_notification m acc.params)
    else .error (versionMsg "jsonrpc" s)

/-- Deserialize for Request in src/de.rs: deserialize_any with RequestVisitor;
only an object shape is accepted. -/
def decodeRequest (v : Value) : Except String Request :=
  match v with
  | .obj fs =>
    match requestWalkFrom {} fs with
    | .error e => .error e
    | .ok acc => requestFinish acc
  | v => .error (invalidTypeMsg v.unexpectedDesc requestExpectedSchema)

/-! ### Response decoding (ResponseVisitor in src/de.rs) -/

/-- The accumulate-then-validate state of ResponseVisitor::visit_map. -/
structure RespAcc where
  jsonrpc : Option String := none
  id : Option Id := none
  result : Option Value := none
  error : Option Error := none

/-- One entry of the ResponseVisitor::visit_map walk.  The result value is
captured raw (any JSON value, including null); the error value decodes through
Error with the failure wrapped by make_field_error. -/
def responseStep (acc : RespAcc) (kv : String × Value) : Except String RespAcc :=
  let (k, v) := kv
  if k = "jsonrpc" then
    match deserialize_string "jsonrpc" v with
    | .error e => .error e
    | .ok s => .ok { acc with jsonrpc := some s }
  else if k = "id" then
    match visitFieldId v with
    | .error e => .error e
    | .ok i => .ok { acc with id := i }
  else if k = "result" then
    .ok { acc with result := some v }
  else if k = "error" then
    match decodeError v with
    | .error e => .error (fieldContainsMsg "error" e)
    | .ok err => .ok { acc with error := some err }
  else .error (unknownFieldMsg k responseFieldNames)

/-- The while-let loop of ResponseVisitor::visit_map over the object entries. -/
def responseWalkFrom (acc : RespAcc) : List (String × Value) → Except String RespAcc
  | [] => .ok acc
  | kv :: rest =>
    match responseStep acc kv with
    | .error e => .error e
    | .ok acc2 => responseWalkFrom acc2 rest

/-- The validation after the walk: jsonrpc must be present and equal "2.0";
then exactly one of result/error must be present, and a successful result
requires a present id, while the error branch takes the id as it stands. -/
def responseFinish (acc : RespAcc) : Except String Response :=
  match acc.jsonrpc with
  | none => .error (missingFieldMsg "jsonrpc")
  | some s =>
    if s = VERSION then
      match acc.result, acc.error with
      | some _, some _ => .error responseAmbiguousMsg
      | some v, none =>
        match acc.id with
        | some i => .ok (Response.new_success i v)
        | none => .error responseIdRequiredMsg
      | none, some e => .ok (Response.new_error acc.id e)
      | none, none => .error responseMissingPayloadMsg
    else .error (versionMsg "jsonrpc" s)

/-- Deserialize for Response in src/de.rs: deserialize_any with
ResponseVisitor; only an object shape is accepted. -/
def decodeResponse (v : Value) : Except String Response :=
  match v with
  | .obj fs =>
    match responseWalkFrom {} fs with
    | .error e => .error e
    | .ok acc => responseFinish acc
  | v => .error (invalidTypeMsg v.unexpectedDesc responseExpectedSchema)

/-! ### Message decoding (MessageVisitor in src/de.rs) -/

/-- The while-let loop of MessageVisitor::visit_seq after the first element
classified the batch as requests: every remaining element must decode as a
Request, and the first failure aborts the whole batch with that failure. -/
def decodeRequestList : List Value → Except String (List Request)
  | [] => .ok []
  | v :: rest =>
    match decodeRequest v with
    | .error e => .error e
    | .ok r =>
      match decodeRequestList rest with
      | .error e => .error e
      | .ok rs => .ok (r :: rs)

/-- The while-let loop of MessageVisitor::visit_seq after the first element
classified the batch as responses. -/
def decodeResponseList : List Value → Except String (List Response)
  | [] => .ok []
  | v :: rest =>
    match decodeResponse v with
    | .error e => .error e
    | .ok p =>
      match decodeResponseList rest with
      | .error e => .error e
      | .ok ps => .ok (p :: ps)

/-- Deserialize for Message in src/de.rs via deserialize_any: an array is a
batch whose kind is fixed by the first element (Request tried first, then
Response), an empty array is rejected; an object is classified by ordered
trial (Request, then Response). -/
def decodeMessage (v : Value) : Except String Message :=
  match v with
  | .arr [] => .error emptyArrayMsg
  | .arr (x :: rest) =>
    match decodeRequest x with
    | .ok r =>
      match decodeRequestList rest with
      | .error e => .error e
      | .ok rs => .ok (.batchRequest (r :: rs))
    | .error _ =>
      match decodeResponse x with
      | .ok p =>
        match decodeResponseList rest with
        | .error e => .error e
        | .ok ps => .ok (.batchResponse (p :: ps))
      | .error _ => .error invalidBatchElementMsg
  | .obj fs =>
    match decodeRequest (.obj fs) with
    | .ok r => .ok (.request r)
    | .error _ =>
      match decodeResponse (.obj fs) with
      | .ok p => .ok (.response p)
      | .error _ => .error objNeitherMsg
  | v => .error (invalidTypeMsg v.unexpectedDesc messageExpectedSchema)

/-! ### Encoders (src/ser.rs) -/

/-- Serialize for Parameters in src/ser.rs. -/
def RequestParams.encode : RequestParams → Value
  | .array xs => .arr xs
  | .object fs => .obj fs

/-- Serialize for Request/Notification in src/ser.rs: jsonrpc, id (omitted for
a notification), method, then params when present. -/
def encodeRequest (r : Request) : Value :=
  .obj ([("jsonrpc", Value.str VERSION)] ++
    (match r.id with
     | some i => [("id", i.encode)]
     | none => []) ++
    [("method", Value.str r.method)] ++
    (match r.params with
     | some p => [("params", p.encode)]
     | none => []))

/-- Serialize for Response in src/ser.rs: jsonrpc, id (null when absent, as in
src/response.rs), then result or error. -/
def encodeResponse (p : Response) : Value :=
  .obj ([("jsonrpc", Value.str VERSION),
    ("id", match p.id with
           | some i => i.encode
           | none => .null)] ++
    (match p.result with
     | .ok v => [("result", v)]
     | .error e => [("error", encodeError e)]))

/-- Serialize for Message in src/ser.rs: dispatch to the variant present. -/
def encodeMessage : Message → Value
  | .request r => encodeRequest r
  | .response p => encodeResponse p
  | .batchRequest rs => .arr (rs.map encodeRequest)
  | .batchResponse ps => .arr (ps.map encodeResponse)

/-! ### Validity (the Rust-side type invariants: i64 bounds on the id, a
well-formed error code, a success response carries an id) -/

/-- The integer branch of Id is an i64 in the Rust source. -/
def Id.valid : Id → Prop
  | .num n => minI64 ≤ n ∧ n ≤ maxI64
  | .str _ => True

/-- An ErrorCode constructed through ErrorCode::create: the serverError payload
lies in the reserved range. -/
def ErrorCode.valid : ErrorCode → Prop
  | .serverError n => ErrorCode.CODE_SERVER_ERROR_MIN ≤ n ∧ n ≤ ErrorCode.CODE_SERVER_ERROR_MAX
  | _ => True

/-- An Error whose code is well-formed. -/
def Error.valid (e : Error) : Prop := e.code.valid

/-- A Request whose id, when present, is a Rust i64. -/
def Request.valid (r : Request) : Prop :=
  match r.id with
  | some i => i.valid
  | none => True

/-- A Response as constructible through new_success/new_error: a success
carries an id, the id is a Rust i64 when numeric, and the error is
well-formed. -/
def Response.valid (p : Response) : Prop :=
  (match p.id with
   | some i => i.valid
   | none => True) ∧
  (match p.result with
   | .ok _ => p.id.isSome = true
   | .error e => e.valid)

/-! ### Substring occurrence, for claims about error-message content -/

/-- Whether pat is a leading segment of l. -/
def listHasPre (pat l : List Char) : Bool :=
  match pat, l with
  | [], _ => true
  | _ :: _, [] => false
  | p :: ps, c :: cs => p == c && listHasPre ps cs

/-- Whether pat occurs contiguously somewhere in l. -/
def subOccurs (pat l : List Char) : Bool :=
  if listHasPre pat l then true
  else
    match l with
    | [] => false
    | _ :: t => subOccurs pat t

/-- The string pat occurs contiguously in s. -/
abbrev StrContains (s pat : String) : Prop := subOccurs pat.data s.data = true

theorem data_app (a b : String) : (a ++ b).data = a.data ++ b.data := by
  cases a; cases b; rfl

theorem listHasPre_app (pat l l' : List Char) (h : listHasPre pat l = true) :
    listHasPre pat (l ++ l') = true := by
  induction pat generalizing l with
  | nil => rfl
  | cons p ps ih =>
    cases l with
    | nil => simp [listHasPre] at h
    | cons c cs =>
      simp [listHasPre] at h ⊢
      exact ⟨h.1, ih cs h.2⟩

theorem subOccurs_app (pat l l' : List Char) (h : subOccurs pat l = true) :
    subOccurs pat (l ++ l') = true := by
  induction l with
  | nil =>
    unfold subOccurs at h
    split at h
    · next hp =>
      have hp' : listHasPre pat l' = true := by
        have := listHasPre_app pat [] l' hp
        simpa using this
      rw [List.nil_append]
      unfold subOccurs
      rw [if_pos hp']
    · exact absurd h (by simp)
  | cons c cs ih =>
    unfold subOccurs at h
    split at h
    · next hp =>
      have hp' := listHasPre_app pat (c :: cs) l' hp
      rw [List.cons_append] at hp'
      rw [List.cons_append]
      unfold subOccurs
      rw [if_pos hp']
    · next hp =>
      have h2 : subOccurs pat cs = true := h
      have h3 := ih h2
      rw [List.cons_append]
      unfold subOccurs
      by_cases hq : listHasPre pat (c :: (cs ++ l')) = true
      · rw [if_pos hq]
      · rw [if_neg hq]
        exact h3

/-- The version-mismatch message always names the expected version "2.0". -/
theorem versionMsg_contains_version (got : String) :
    StrContains (versionMsg "jsonrpc" got) VERSION := by
  show subOccurs VERSION.data (versionMsg "jsonrpc" got).data = true
  unfold versionMsg
  rw [data_app, data_app]
  apply subOccurs_app
  apply subOccurs_app
  decide

/-! ### Round-trip helper lemmas -/

theorem create_as_i64 (c : ErrorCode) (h : c.valid) :
    ErrorCode.create c.as_i64 = .ok c := by
  cases c with
  | serverError n =>
    obtain ⟨h1, h2⟩ := h
    simp only [ErrorCode.valid, ErrorCode.CODE_SERVER_ERROR_MIN,
      ErrorCode.CODE_SERVER_ERROR_MAX] at h1 h2
    simp only [ErrorCode.as_i64, ErrorCode.create, ErrorCode.CODE_PARSE_ERROR,
      ErrorCode.CODE_INVALID_REQUEST, ErrorCode.CODE_METHOD_NOT_FOUND,
      ErrorCode.CODE_INVALID_PARAMS, ErrorCode.CODE_INTERNAL_ERROR,
      ErrorCode.CODE_SERVER_ERROR_MIN, ErrorCode.CODE_SERVER_ERROR_MAX]
    rw [if_neg (by omega), if_neg (by omega), if_neg (by omega), if_neg (by omega),
      if_neg (by omega), if_pos (by omega)]
  | parseError => rfl
  | invalidRequest => rfl
  | methodNotFound => rfl
  | invalidParams => rfl
  | internalError => rfl

theorem as_i64_bounds (c : ErrorCode) (h : c.valid) :
    minI64 ≤ c.as_i64 ∧ c.as_i64 ≤ maxI64 := by
  cases c with
  | serverError n =>
    obtain ⟨h1, h2⟩ := h
    simp only [ErrorCode.valid, ErrorCode.CODE_SERVER_ERROR_MIN,
      ErrorCode.CODE_SERVER_ERROR_MAX] at h1 h2
    simp only [ErrorCode.as_i64, minI64, maxI64]
    omega
  | parseError => exact ⟨by decide, by decide⟩
  | invalidRequest => exact ⟨by decide, by decide⟩
  | methodNotFound => exact ⟨by decide, by decide⟩
  | invalidParams => exact ⟨by decide, by decide⟩
  | internalError => exact ⟨by decide, by decide⟩

theorem visitFieldCode_enc (c : ErrorCode) (h : c.valid) :
    visitFieldCode (.int c.as_i64) = .ok c := by
  have hb := as_i64_bounds c h
  simp only [visitFieldCode, deserialize_i64, if_pos hb, create_as_i64 c h]

theorem decodeError_encodeError (e : Error) (h : e.valid) :
    decodeError (encodeError e) = .ok e := by
  obtain ⟨c, m, d⟩ := e
  have hc : ErrorCode.valid c := h
  cases d with
  | none =>
    simp only [encodeError, List.append_nil, decodeError, errorWalkFrom, errorStep]
    simp only [visitFieldCode_enc c hc]
    simp [errorFinish, deserialize_string, Error.new]
  | some dd =>
    simp only [encodeError, List.cons_append, List.nil_append, decodeError,
      errorWalkFrom, errorStep]
    simp only [visitFieldCode_enc c hc]
    simp [errorFinish, deserialize_string, Error.new, Error.with_data, ErrorData.new]

theorem decodeId_enc (i : Id) (h : i.valid) : decodeId i.encode = .ok i := by
  cases i with
  | str s => rfl
  | num n =>
    obtain ⟨h1, h2⟩ := h
    simp only [Id.encode, decodeId]
    by_cases hn : n < 0
    · rw [if_pos hn]
    · rw [if_neg hn, if_pos h2]

theorem visitFieldId_enc (i : Id) (h : i.valid) : visitFieldId i.encode = .ok (some i) := by
  cases i with
  | str s => rfl
  | num n =>
    simp only [Id.encode, visitFieldId]
    rw [show decodeId (Value.int n) = .ok (.num n) from decodeId_enc (Id.num n) h]

theorem visitFieldParams_enc (p : RequestParams) : visitFieldParams p.encode = .ok (some p) := by
  cases p <;> rfl

theorem decodeRequest_encodeRequest (r : Request) (h : r.valid) :
    decodeRequest (encodeRequest r) = .ok r := by
  obtain ⟨oid, m, ops⟩ := r
  cases oid with
  | none =>
    cases ops with
    | none =>
      simp [encodeRequest, decodeRequest, requestWalkFrom, requestStep, deserialize_string,
        requestFinish, VERSION, Request.new_notification]
    | some p =>
      simp only [encodeRequest, List.cons_append, List.nil_append, decodeRequest,
        requestWalkFrom, requestStep, deserialize_string]
      simp only [visitFieldParams_enc p]
      simp [requestFinish, VERSION, Request.new_notification]
  | some i =>
    have hi : i.valid := h
    cases ops with
    | none =>
      simp only [encodeRequest, List.cons_append, List.nil_append, decodeRequest,
        requestWalkFrom, requestStep, deserialize_string]
      simp only [visitFieldId_enc i hi]
      simp [requestFinish, VERSION, Request.new_request]
    | some p =>
      simp only [encodeRequest, List.cons_append, List.nil_append, decodeRequest,
        requestWalkFrom, requestStep, deserialize_string]
      simp only [visitFieldId_enc i hi, visitFieldParams_enc p]
      simp [requestFinish, VERSION, Request.new_request]

theorem decodeResponse_encodeResponse (p : Response) (h : p.valid) :
    decodeResponse (encodeResponse p) = .ok p := by
  obtain ⟨oid, res⟩ := p
  obtain ⟨hid, hres⟩ := h
  cases res with
  | ok v =>
    cases oid with
    | none => simp at hres
    | some i =>
      have hi : i.valid := hid
      simp only [encodeResponse, List.cons_append, List.nil_append, decodeResponse,
        responseWalkFrom, responseStep, deserialize_string]
      simp only [visitFieldId_enc i hi]
      simp [responseFinish, VERSION, Response.new_success]
  | error e =>
    have he : e.valid := hres
    cases oid with
    | none =>
      simp only [encodeResponse, List.cons_append, List.nil_append, decodeResponse,
        responseWalkFrom, responseStep, deserialize_string, visitFieldId]
      simp only [decodeError_encodeError e he]
      simp [responseFinish, VERSION, Response.new_error]
    | some i =>
      have hi : i.valid := hid
      simp only [encodeResponse, List.cons_append, List.nil_append, decodeResponse,
        responseWalkFrom, responseStep, deserialize_string]
      simp only [visitFieldId_enc i hi, decodeError_encodeError e he]
      simp [responseFinish, VERSION, Response.new_error]

/-! ### Batch helper lemmas -/

theorem decodeRequestList_mem_fail (l : List Value) (y : Value) (e : String)
    (hy : y ∈ l) (he : decodeRequest y = .error e) :
    ∃ msg, decodeRequestList l = .error msg := by
  induction l with
  | nil => cases hy
  | cons z t ih =>
    rcases List.mem_cons.mp hy with hz | ht
    · subst hz
      exact ⟨e, by simp [decodeRequestList, he]⟩
    · cases hz2 : decodeRequest z with
      | error e2 => exact ⟨e2, by simp [decodeRequestList, hz2]⟩
      | ok r =>
        obtain ⟨msg, hmsg⟩ := ih ht
        exact ⟨msg, by simp [decodeRequestList, hz2, hmsg]⟩

theorem decodeResponseList_mem_fail (l : List Value) (y : Value) (e : String)
    (hy : y ∈ l) (he : decodeResponse y = .error e) :
    ∃ msg, decodeResponseList l = .error msg := by
  induction l with
  | nil => cases hy
  | cons z t ih =>
    rcases List.mem_cons.mp hy with hz | ht
    · subst hz
      exact ⟨e, by simp [decodeResponseList, he]⟩
    · cases hz2 : decodeResponse z with
      | error e2 => exact ⟨e2, by simp [decodeResponseList, hz2]⟩
      | ok r =>
        obtain ⟨msg, hmsg⟩ := ih ht
        exact ⟨msg, by simp [decodeResponseList, hz2, hmsg]⟩

/-- A successful requestFinish requires the accumulated jsonrpc to be "2.0". -/
theorem requestFinish_ok_version (acc : ReqAcc) (r : Request)
    (h : requestFinish acc = .ok r) : acc.jsonrpc = some VERSION := by
  unfold requestFinish at h
  cases hj : acc.jsonrpc with
  | none =>
    simp only [hj] at h
    exact absurd h (by simp)
  | some s =>
    simp only [hj] at h
    by_cases hv : s = VERSION
    · rw [hv]
    · rw [if_neg hv] at h
      exact absurd h (by simp)

/-- A successful responseFinish requires the accumulated jsonrpc to be "2.0". -/
theorem responseFinish_ok_version (acc : RespAcc) (p : Response)
    (h : responseFinish acc = .ok p) : acc.jsonrpc = some VERSION := by
  unfold responseFinish at h
  cases hj : acc.jsonrpc with
  | none =>
    simp only [hj] at h
    exact absurd h (by simp)
  | some s =>
    simp only [hj] at h
    by_cases hv : s = VERSION
    · rw [hv]
    · rw [if_neg hv] at h
      exact absurd h (by simp)

/-! ### Claim theorems -/

/-- Claim C1: for every valid Notification (a Request without an id), Request,
Response and Error value, decoding the JSON document produced by encoding the
value succeeds and yields a value equal to it.  Validity is the Rust-side type
invariant: a numeric id is an i64, a success response carries an id, and error
codes come from ErrorCode::create. -/
theorem c1_encode_decode_roundtrip (r : Request) (p : Response) (e : Error)
    (hr : r.valid) (hp : p.valid) (he : e.valid) :
    decodeRequest (encodeRequest r) = .ok r ∧
    decodeResponse (encodeResponse p) = .ok p ∧
    decodeError (encodeError e) = .ok e :=
  ⟨decodeRequest_encodeRequest r hr, decodeResponse_encodeResponse p hp,
    decodeError_encodeError e he⟩

/-- Witness for C1 at concrete values: a notification, a success response with
an array result, and a default internal error. -/
theorem c1_encode_decode_roundtrip_witness :
    decodeRequest (encodeRequest (Request.new_notification "notify1" none)) =
      .ok (Request.new_notification "notify1" none) ∧
    decodeResponse (encodeResponse
        (Response.new_success (.num 15) (.arr [.int 1, .int 2, .int 3]))) =
      .ok (Response.new_success (.num 15) (.arr [.int 1, .int 2, .int 3])) ∧
    decodeError (encodeError (Error.new_default .internalError)) =
      .ok (Error.new_default .internalError) :=
  c1_encode_decode_roundtrip _ _ _ trivial ⟨⟨by decide, by decide⟩, rfl⟩ trivial

/-- Claim C2: once a JSON object has walked through the ResponseVisitor field
loop (hwalk) and carries the exact version "2.0" (hver): result and error both
present fails with the "cannot both be present" message; neither present fails
with the missing-payload message; result present with an absent or null id
fails with the id-required message; error present without result succeeds
whatever the id is. -/
theorem c2_response_payload_policy (fs : List (String × Value)) (acc : RespAcc)
    (hwalk : responseWalkFrom {} fs = .ok acc) (hver : acc.jsonrpc = some VERSION) :
    (∀ v e, acc.result = some v → acc.error = some e →
      decodeResponse (.obj fs) = .error responseAmbiguousMsg ∧
      StrContains responseAmbiguousMsg "cannot both be present") ∧
    (acc.result = none → acc.error = none →
      decodeResponse (.obj fs) = .error responseMissingPayloadMsg) ∧
    (∀ v, acc.result = some v → acc.error = none → acc.id = none →
      decodeResponse (.obj fs) = .error responseIdRequiredMsg) ∧
    (∀ e, acc.result = none → acc.error = some e →
      decodeResponse (.obj fs) = .ok (Response.new_error acc.id e)) := by
  have hdec : decodeResponse (.obj fs) = responseFinish acc := by
    simp only [decodeResponse, hwalk]
  refine ⟨?_, ?_, ?_, ?_⟩
  · intro v e hv he
    refine ⟨?_, by decide⟩
    rw [hdec]
    simp only [responseFinish, hver, hv, he]
    simp
  · intro hv he
    rw [hdec]
    simp only [responseFinish, hver, hv, he]
    simp
  · intro v hv he hid
    rw [hdec]
    simp only [responseFinish, hver, hv, he, hid]
    simp
  · intro e hv he
    rw [hdec]
    simp only [responseFinish, hver, hv, he]
    simp

/-- Witness for C2: the object with version "2.0", a null result and a
well-formed error decodes to the ambiguous-payload failure, and the other
three branches are instantiated at the same accumulator. -/
theorem c2_response_payload_policy_witness :
    (∀ v e,
        (some Value.null : Option Value) = some v →
        (some (Error.new .internalError "Internal error") : Option Error) = some e →
      decodeResponse (.obj [("jsonrpc", .str "2.0"), ("result", .null),
        ("error", .obj [("code", .int (-32603)), ("message", .str "Internal error")])]) =
        .error responseAmbiguousMsg ∧
      StrContains responseAmbiguousMsg "cannot both be present") ∧
    ((some Value.null : Option Value) = none →
        (some (Error.new .internalError "Internal error") : Option Error) = none →
      decodeResponse (.obj [("jsonrpc", .str "2.0"), ("result", .null),
        ("error", .obj [("code", .int (-32603)), ("message", .str "Internal error")])]) =
        .error responseMissingPayloadMsg) ∧
    (∀ v, (some Value.null : Option Value) = some v →
        (some (Error.new .internalError "Internal error") : Option Error) = none →
        (none : Option Id) = none →
      decodeResponse (.obj [("jsonrpc", .str "2.0"), ("result", .null),
        ("error", .obj [("code", .int (-32603)), ("message", .str "Internal error")])]) =
        .error responseIdRequiredMsg) ∧
    (∀ e, (some Value.null : Option Value) = none →
        (some (Error.new .internalError "Internal error") : Option Error) = some e →
      decodeResponse (.obj [("jsonrpc", .str "2.0"), ("result", .null),
        ("error", .obj [("code", .int (-32603)), ("message", .str "Internal error")])]) =
        .ok (Response.new_error none e)) :=
  c2_response_payload_policy
    [("jsonrpc", .str "2.0"), ("result", .null),
      ("error", .obj [("code", .int (-32603)), ("message", .str "Internal error")])]
    { jsonrpc := some "2.0", id := none, result := some .null,
      error := some (Error.new .internalError "Internal error") }
    rfl rfl

/-- Claim C3 counterexample: decoding JSON null as an Id does not yield a Null
variant; the IdVisitor has no null handling and the decode fails with a
type-mismatch error. -/
theorem c3_null_id_counterexample :
    decodeId Value.null = .error (invalidTypeMsg "null" idExpectedSchema) := rfl

/-- Claim C3 (amended): Id decoding accepts exactly two JSON shapes: a string
yields the String variant, and an integer yields the numeric variant provided
it is at most i64::MAX (negative integers, representable down to i64::MIN, are
accepted); an integer above i64::MAX fails with the distinguished
number-too-large overflow error, never wrapping or truncating; JSON null and
every other JSON type (boolean, float, array, object) fail with a
type-mismatch error. -/
theorem c3_id_decode_amended (s : String) (n : Int) (b : Bool) (fr : String)
    (xs : List Value) (fs : List (String × Value))
    (_hlo : minI64 ≤ n) (_hhi : n < 18446744073709551616) :
    decodeId (.str s) = .ok (.str s) ∧
    (n ≤ maxI64 → decodeId (.int n) = .ok (.num n)) ∧
    (maxI64 < n → decodeId (.int n) = .error msgNumberTooLarge) ∧
    decodeId .null = .error (invalidTypeMsg "null" idExpectedSchema) ∧
    decodeId (.bool b) =
      .error (invalidTypeMsg (Value.bool b).unexpectedDesc idExpectedSchema) ∧
    decodeId (.float fr) =
      .error (invalidTypeMsg (Value.float fr).unexpectedDesc idExpectedSchema) ∧
    decodeId (.arr xs) = .error (invalidTypeMsg "sequence" idExpectedSchema) ∧
    decodeId (.obj fs) = .error (invalidTypeMsg "map" idExpectedSchema) := by
  refine ⟨rfl, ?_, ?_, rfl, ?_, rfl, rfl, rfl⟩
  · intro hle
    simp only [decodeId]
    by_cases hn : n < 0
    · rw [if_pos hn]
    · rw [if_neg hn, if_pos hle]
  · intro hgt
    simp only [decodeId]
    rw [if_neg (by simp only [maxI64] at hgt; omega), if_neg (by omega)]
  · cases b <;> rfl

/-- Witness for C3 (amended) at concrete inputs. -/
theorem c3_id_decode_amended_witness :
    decodeId (.str "a") = .ok (.str "a") ∧
    ((7 : Int) ≤ maxI64 → decodeId (.int 7) = .ok (.num 7)) ∧
    (maxI64 < (7 : Int) → decodeId (.int 7) = .error msgNumberTooLarge) ∧
    decodeId .null = .error (invalidTypeMsg "null" idExpectedSchema) ∧
    decodeId (.bool true) =
      .error (invalidTypeMsg (Value.bool true).unexpectedDesc idExpectedSchema) ∧
    decodeId (.float "3.14") =
      .error (invalidTypeMsg (Value.float "3.14").unexpectedDesc idExpectedSchema) ∧
    decodeId (.arr []) = .error (invalidTypeMsg "sequence" idExpectedSchema) ∧
    decodeId (.obj []) = .error (invalidTypeMsg "map" idExpectedSchema) :=
  c3_id_decode_amended "a" 7 true "3.14" [] [] (by decide) (by decide)

/-- Claim C4: ErrorCode::create succeeds exactly on the five reserved protocol
codes (yielding the named variants) and on the [-32099, -32000] server-error
range (yielding ServerError), and for every other integer fails with a
fully-formed Error of code InvalidRequest carrying the diagnostic string as
data. -/
theorem c4_errorcode_create (c : Int) :
    (c = -32700 → ErrorCode.create c = .ok .parseError) ∧
    (c = -32600 → ErrorCode.create c = .ok .invalidRequest) ∧
    (c = -32601 → ErrorCode.create c = .ok .methodNotFound) ∧
    (c = -32602 → ErrorCode.create c = .ok .invalidParams) ∧
    (c = -32603 → ErrorCode.create c = .ok .internalError) ∧
    (-32099 ≤ c → c ≤ -32000 → ErrorCode.create c = .ok (.serverError c)) ∧
    (c ≠ -32700 → c ≠ -32600 → c ≠ -32601 → c ≠ -32602 → c ≠ -32603 →
      ¬(-32099 ≤ c ∧ c ≤ -32000) →
      ErrorCode.create c =
        .error { code := .invalidRequest, message := "Invalid Request",
                 data := some (ErrorData.new (.str errInvalidCode)) }) := by
  refine ⟨?_, ?_, ?_, ?_, ?_, ?_, ?_⟩
  · rintro rfl; rfl
  · rintro rfl; rfl
  · rintro rfl; rfl
  · rintro rfl; rfl
  · rintro rfl; rfl
  · intro h1 h2
    simp only [ErrorCode.create, ErrorCode.CODE_PARSE_ERROR, ErrorCode.CODE_INVALID_REQUEST,
      ErrorCode.CODE_METHOD_NOT_FOUND, ErrorCode.CODE_INVALID_PARAMS,
      ErrorCode.CODE_INTERNAL_ERROR, ErrorCode.CODE_SERVER_ERROR_MIN,
      ErrorCode.CODE_SERVER_ERROR_MAX]
    rw [if_neg (by omega), if_neg (by omega), if_neg (by omega), if_neg (by omega),
      if_neg (by omega), if_pos (by omega)]
  · intro h1 h2 h3 h4 h5 h6
    simp only [ErrorCode.create, ErrorCode.CODE_PARSE_ERROR, ErrorCode.CODE_INVALID_REQUEST,
      ErrorCode.CODE_METHOD_NOT_FOUND, ErrorCode.CODE_INVALID_PARAMS,
      ErrorCode.CODE_INTERNAL_ERROR, ErrorCode.CODE_SERVER_ERROR_MIN,
      ErrorCode.CODE_SERVER_ERROR_MAX]
    rw [if_neg h1, if_neg h2, if_neg h3, if_neg h4, if_neg h5, if_neg h6]
    rfl

/-- Witness for C4 at the concrete codes -32700 (accepted) and 0 (rejected). -/
theorem c4_errorcode_create_witness :
    ErrorCode.create (-32700) = .ok .parseError ∧
    ErrorCode.create 0 =
      .error { code := .invalidRequest, message := "Invalid Request",
               data := some (ErrorData.new (.str errInvalidCode)) } :=
  ⟨(c4_errorcode_create (-32700)).1 rfl,
    (c4_errorcode_create 0).2.2.2.2.2.2 (by decide) (by decide) (by decide) (by decide)
      (by decide) (by decide)⟩

/-- Claim C5: a JSON array decoded as a Message fixes the batch kind by the
first element (Request tried first, then Response); every subsequent element
must decode as that kind, a batch whose first element decodes as neither kind
fails with the invalid-batch-element message, and a batch containing a later
element that fails to decode as the fixed kind (a mixed or malformed batch)
fails as a whole. -/
theorem c5_batch_homogeneous (x : Value) (rest : List Value) :
    (∀ r, decodeRequest x = .ok r →
      decodeMessage (.arr (x :: rest)) =
        match decodeRequestList rest with
        | .error e => .error e
        | .ok rs => .ok (.batchRequest (r :: rs))) ∧
    (∀ e p, decodeRequest x = .error e → decodeResponse x = .ok p →
      decodeMessage (.arr (x :: rest)) =
        match decodeResponseList rest with
        | .error e2 => .error e2
        | .ok ps => .ok (.batchResponse (p :: ps))) ∧
    (∀ e e2, decodeRequest x = .error e → decodeResponse x = .error e2 →
      decodeMessage (.arr (x :: rest)) = .error invalidBatchElementMsg) ∧
    (∀ r y e, decodeRequest x = .ok r → y ∈ rest → decodeRequest y = .error e →
      ∃ msg, decodeMessage (.arr (x :: rest)) = .error msg) ∧
    (∀ e p y e2, decodeRequest x = .error e → decodeResponse x = .ok p →
      y ∈ rest → decodeResponse y = .error e2 →
      ∃ msg, decodeMessage (.arr (x :: rest)) = .error msg) := by
  refine ⟨?_, ?_, ?_, ?_, ?_⟩
  · intro r hr
    simp only [decodeMessage, hr]
  · intro e p he hp
    simp only [decodeMessage, he, hp]
  · intro e e2 he he2
    simp only [decodeMessage, he, he2]
  · intro r y e hr hy he
    obtain ⟨msg, hmsg⟩ := decodeRequestList_mem_fail rest y e hy he
    exact ⟨msg, by simp only [decodeMessage, hr, hmsg]⟩
  · intro e p y e2 he hp hy he2
    obtain ⟨msg, hmsg⟩ := decodeResponseList_mem_fail rest y e2 hy he2
    exact ⟨msg, by simp only [decodeMessage, he, hp, hmsg]⟩

/-- Witness for C5: the spec's mixed batch, a request followed by a response,
is rejected as a whole. -/
theorem c5_batch_homogeneous_witness :
    ∃ msg,
      decodeMessage (.arr
        [Value.obj [("jsonrpc", .str "2.0"), ("id", .int 1), ("method", .str "a")],
         Value.obj [("jsonrpc", .str "2.0"), ("id", .int 2), ("result", .int 1)]]) =
        .error msg :=
  (c5_batch_homogeneous
      (Value.obj [("jsonrpc", .str "2.0"), ("id", .int 1), ("method", .str "a")])
      [Value.obj [("jsonrpc", .str "2.0"), ("id", .int 2), ("result", .int 1)]]).2.2.2.1
    (Request.new_request (.num 1) "a" none) _
    (unknownFieldMsg "result" requestFieldNames) rfl (List.mem_singleton.mpr rfl) rfl

/-- Claim C6 counterexample: decoding an object without a jsonrpc field fails,
but with the serde missing-field message, which does not name the expected
version "2.0". -/
theorem c6_version_counterexample :
    decodeRequest (.obj [("method", .str "m")]) = .error (missingFieldMsg "jsonrpc") ∧
    ¬ StrContains (missingFieldMsg "jsonrpc") "2.0" :=
  ⟨rfl, by decide⟩

/-- Claim C6 (amended): a Request (notification included) or Response object
decodes successfully only if the jsonrpc field is present and equals exactly
"2.0"; a present field with any other string fails with an error naming the
expected version, while an absent field fails with the serde missing-field
error, which does not name the version. -/
theorem c6_jsonrpc_version_amended (fs gs : List (String × Value))
    (ra : ReqAcc) (pa : RespAcc)
    (hr : requestWalkFrom {} fs = .ok ra) (hp : responseWalkFrom {} gs = .ok pa) :
    (ra.jsonrpc = none →
      decodeRequest (.obj fs) = .error (missingFieldMsg "jsonrpc")) ∧
    (∀ s, ra.jsonrpc = some s → s ≠ VERSION →
      decodeRequest (.obj fs) = .error (versionMsg "jsonrpc" s) ∧
      StrContains (versionMsg "jsonrpc" s) VERSION) ∧
    (∀ r, decodeRequest (.obj fs) = .ok r → ra.jsonrpc = some VERSION) ∧
    (pa.jsonrpc = none →
      decodeResponse (.obj gs) = .error (missingFieldMsg "jsonrpc")) ∧
    (∀ s, pa.jsonrpc = some s → s ≠ VERSION →
      decodeResponse (.obj gs) = .error (versionMsg "jsonrpc" s)) ∧
    (∀ p, decodeResponse (.obj gs) = .ok p → pa.jsonrpc = some VERSION) := by
  have hdr : decodeRequest (.obj fs) = requestFinish ra := by
    simp only [decodeRequest, hr]
  have hdp : decodeResponse (.obj gs) = responseFinish pa := by
    simp only [decodeResponse, hp]
  refine ⟨?_, ?_, ?_, ?_, ?_, ?_⟩
  · intro hnone
    rw [hdr]
    simp only [requestFinish, hnone]
  · intro s hs hne
    refine ⟨?_, versionMsg_contains_version s⟩
    rw [hdr]
    simp only [requestFinish, hs]
    rw [if_neg hne]
  · intro r hok
    rw [hdr] at hok
    exact requestFinish_ok_version ra r hok
  · intro hnone
    rw [hdp]
    simp only [responseFinish, hnone]
  · intro s hs hne
    rw [hdp]
    simp only [responseFinish, hs]
    rw [if_neg hne]
  · intro p hok
    rw [hdp] at hok
    exact responseFinish_ok_version pa p hok

/-- Witness for C6 (amended): a request object with jsonrpc "1.0" fails with
the version-naming error, and a response object with jsonrpc absent fails with
the missing-field error. -/
theorem c6_jsonrpc_version_amended_witness :
    decodeRequest (.obj [("jsonrpc", .str "1.0"), ("method", .str "m")]) =
      .error (versionMsg "jsonrpc" "1.0") ∧
    StrContains (versionMsg "jsonrpc" "1.0") VERSION ∧
    decodeResponse (.obj [("result", .int 1), ("id", .int 1)]) =
      .error (missingFieldMsg "jsonrpc") := by
  have h := c6_jsonrpc_version_amended
    [("jsonrpc", .str "1.0"), ("method", .str "m")]
    [("result", .int 1), ("id", .int 1)]
    { jsonrpc := some "1.0", id := none, method := some "m", params := none }
    { jsonrpc := none, id := some (.num 1), result := some (.int 1), error := none }
    rfl rfl
  obtain ⟨hmain, hsub⟩ := h.2.1 "1.0" rfl (by decide)
  exact ⟨hmain, hsub, h.2.2.2.1 rfl⟩

/-- Claim C7 counterexample: an Error object in which the message field appears
twice decodes successfully, the later occurrence silently overwriting the
earlier one; there is no duplicate-field rejection. -/
theorem c7_duplicate_counterexample :
    decodeError (.obj [("code", .int (-32700)), ("message", .str "a"), ("message", .str "b")]) =
      .ok { code := .parseError, message := "b", data := none } := rfl

/-- Claim C7 (amended): the hand-written visitors never reject a repeated
field; a later occurrence of the same field simply overwrites the accumulator
slot, for the Error walk (message shown), the Request/Notification walk
(method shown) and the Response walk (result shown). -/
theorem c7_duplicate_overwrites_amended (ea : ErrAcc) (ra : ReqAcc) (pa : RespAcc)
    (m1 m2 t1 t2 : String) (v1 v2 : Value)
    (rest1 rest2 rest3 : List (String × Value)) :
    errorWalkFrom ea (("message", .str m1) :: ("message", .str m2) :: rest1) =
      errorWalkFrom ea (("message", .str m2) :: rest1) ∧
    requestWalkFrom ra (("method", .str t1) :: ("method", .str t2) :: rest2) =
      requestWalkFrom ra (("method", .str t2) :: rest2) ∧
    responseWalkFrom pa (("result", v1) :: ("result", v2) :: rest3) =
      responseWalkFrom pa (("result", v2) :: rest3) := by
  refine ⟨?_, ?_, ?_⟩
  · simp [errorWalkFrom, errorStep, deserialize_string]
  · simp [requestWalkFrom, requestStep, deserialize_string]
  · simp [responseWalkFrom, responseStep]

/-- Claim C8: the data field of an error object accepts any JSON value,
storing it unevaluated, and encoding the resulting error re-emits exactly that
value under data. -/
theorem c8_error_data_opaque (v : Value) (n : Int) (m : String) (ec : ErrorCode)
    (hc : ErrorCode.create n = .ok ec) :
    decodeError (.obj [("code", .int n), ("message", .str m), ("data", v)]) =
      .ok { code := ec, message := m, data := some (ErrorData.new v) } ∧
    encodeError { code := ec, message := m, data := some (ErrorData.new v) } =
      .obj [("code", .int ec.as_i64), ("message", .str m), ("data", v)] := by
  have hb : minI64 ≤ n ∧ n ≤ maxI64 := by
    unfold ErrorCode.create at hc
    simp only [ErrorCode.CODE_PARSE_ERROR, ErrorCode.CODE_INVALID_REQUEST,
      ErrorCode.CODE_METHOD_NOT_FOUND, ErrorCode.CODE_INVALID_PARAMS,
      ErrorCode.CODE_INTERNAL_ERROR, ErrorCode.CODE_SERVER_ERROR_MIN,
      ErrorCode.CODE_SERVER_ERROR_MAX] at hc
    split_ifs at hc with h1 h2 h3 h4 h5 h6
    · simp only [minI64, maxI64]; omega
    · simp only [minI64, maxI64]; omega
    · simp only [minI64, maxI64]; omega
    · simp only [minI64, maxI64]; omega
    · simp only [minI64, maxI64]; omega
    · simp only [minI64, maxI64]; omega
  constructor
  · simp only [decodeError, errorWalkFrom, errorStep, visitFieldCode, deserialize_i64,
      if_pos hb, hc]
    simp [deserialize_string, errorFinish, Error.new, Error.with_data, ErrorData.new]
  · simp [encodeError, ErrorData.new]

/-- Witness for C8 with a composite JSON value as data. -/
theorem c8_error_data_opaque_witness :
    decodeError (.obj [("code", .int (-32601)), ("message", .str "x"),
        ("data", .obj [("k", .arr [.null, .bool true])])]) =
      .ok { code := .methodNotFound, message := "x",
            data := some (ErrorData.new (.obj [("k", .arr [.null, .bool true])])) } ∧
    encodeError { code := .methodNotFound, message := "x",
                  data := some (ErrorData.new (.obj [("k", .arr [.null, .bool true])])) } =
      .obj [("code", .int (ErrorCode.methodNotFound).as_i64), ("message", .str "x"),
        ("data", .obj [("k", .arr [.null, .bool true])])] :=
  c8_error_data_opaque (.obj [("k", .arr [.null, .bool true])]) (-32601) "x"
    .methodNotFound rfl

/-- Claim C9: an identifier decoded from a JSON integer accepts every negative
value representable as an i64: for -2^63 ≤ n < 0 the decode succeeds and
yields the numeric variant carrying n. -/
theorem c9_negative_id (n : Int) (hlo : minI64 ≤ n) (hneg : n < 0) :
    decodeId (.int n) = .ok (.num n) := by
  have _ := hlo
  simp only [decodeId]
  rw [if_pos hneg]

/-- Witness for C9 at n = -5. -/
theorem c9_negative_id_witness : decodeId (.int (-5)) = .ok (.num (-5)) :=
  c9_negative_id (-5) (by decide) (by decide)

/-- Claim C10: decoding an empty JSON array as a Message always fails with the
"empty array" error; the empty batch is never a valid message. -/
theorem c10_empty_batch : decodeMessage (.arr []) = .error emptyArrayMsg := rfl

end JsonRpc
